import Mathlib

/-
Verification of the AnarQ&Q ecosystem demo installer
(src/install-anarqq-demo.py) against its natural-language specification.

The installer's orchestration core (class AnarQQInstaller) is embedded
shallowly: filesystem effects become an explicit `FS` state, the external
world (available tools, subprocess exit statuses, download outcomes) becomes
an `Env` oracle fixed for one run, and the observable outputs (log records
delivered to stdout and the log callback, progress-callback events, and the
external commands performed) are collected in an `Out` writer value.
Python exceptions become `Except String` results.  Floating-point disk-space
division `free / 1024**3 >= 5` is modelled as the exact Nat comparison
`5 * 1024^3 <= free`.
-/

namespace AnarQQ

/-- A log record as delivered to stdout and the log callback: severity level
and message text. -/
structure LogRecord where
  level : String
  message : String
deriving DecidableEq

/-- A progress event as passed to the progress callback: integer percentage
and stage label. -/
structure ProgressEvent where
  value : Nat
  message : String
deriving DecidableEq

/-- Kinds of external effects the installer performs, used to observe which
operations a run attempted. -/
inductive ActKind where
  | gitPull
  | gitClone
  | download
  | extract
  | move
  | npmInstall
  | npmBuild
deriving DecidableEq

/-- An external action, tagged with the component name it was performed for
("Demo" or "Core" in the orchestrated run). -/
structure Action where
  name : String
  kind : ActKind
deriving DecidableEq

/-- State of one acquisition destination directory: whether it exists and
whether it contains a `.git` entry (a version-control working copy). -/
structure DirState where
  dirExists : Bool
  hasGit : Bool
deriving DecidableEq

/-- The filesystem locations the installer touches: the install root, the
demo and core destination directories, the install log, and the demo
directory's environment files and the generated launcher scripts. -/
structure FS where
  installDir : Bool
  demoDir : DirState
  coreDir : DirState
  logFileCreated : Bool
  logFileContent : List String
  envExample : Option String
  envFile : Option String
  startScript : Bool
  stopScript : Bool
deriving DecidableEq

/-- Observable output of a (partial) run: log records delivered to the log
callback and stdout, progress events passed to the progress callback, and
the external actions performed, each in emission order. -/
structure Out where
  logs : List LogRecord
  progress : List ProgressEvent
  actions : List Action
deriving DecidableEq

instance : Append Out :=
  ⟨fun a b => ⟨a.logs ++ b.logs, a.progress ++ b.progress, a.actions ++ b.actions⟩⟩

/-- One invocation of the `urlretrieve` reporthook: block count, block size
and total size, exactly the three arguments Python passes. -/
structure HookCall where
  blockNum : Nat
  blockSize : Nat
  totalSize : Nat
deriving DecidableEq

/-- Oracle for one acquisition attempt: whether the git pull/clone exits
zero, whether the archive download raises (with its message), the
reporthook invocations the download produces, whether extraction raises,
and the top-level entries the extraction yields. -/
structure AcqEnv where
  gitOk : Bool
  downloadExc : Option String
  hookCalls : List HookCall
  extractExc : Option String
  extractedDirs : List String
deriving DecidableEq

/-- The external world for one installation run: per-tool `--version`
results (`none` when the tool is missing or times out), free disk space in
bytes (`none` when `shutil.disk_usage` raises), one acquisition oracle per
repository, and the npm install/build exit statuses. -/
structure Env where
  pythonVersion : String
  node : Option String
  npm : Option String
  git : Option String
  docker : Option String
  freeBytes : Option Nat
  demoAcq : AcqEnv
  coreAcq : AcqEnv
  npmInstallOk : Bool
  npmBuildOk : Bool
deriving DecidableEq

def CONFIG_demo_repo : String := "https://github.com/AnarQorp/anarqq-ecosystem-demo.git"

def CONFIG_core_repo : String := "https://github.com/AnarQorp/anarqq-ecosystem-core.git"

def CONFIG_demo_zip : String := "https://github.com/AnarQorp/anarqq-ecosystem-demo/archive/refs/heads/main.zip"

def CONFIG_core_zip : String := "https://github.com/AnarQorp/anarqq-ecosystem-core/archive/refs/heads/main.zip"

def CONFIG_required_disk_gb : Nat := 5

/-- The formatted line `[LEVEL] message` written to stdout and the log file. -/
def log_entry (message level : String) : String :=
  "[" ++ level ++ "] " ++ message

/-- Filesystem effect of `AnarQQInstaller.log`: the line is appended to the
log file only when the log file's parent (the install root) exists. -/
def log_fs (fs : FS) (message level : String) : FS :=
  if fs.installDir then
    { fs with logFileCreated := true,
              logFileContent := fs.logFileContent ++ [log_entry message level] }
  else fs

/-- `AnarQQInstaller.log`: prints the entry, conditionally appends it to the
log file, and delivers it to the log callback. -/
def log (fs : FS) (message : String) (level : String) : FS × Out :=
  (log_fs fs message level, ⟨[⟨level, message⟩], [], []⟩)

/-- `AnarQQInstaller.log` followed by an error-tally contribution, the shape
used inside the requirements check. -/
def log3 (fs : FS) (message level : String) (err : Nat) : FS × Out × Nat :=
  (log_fs fs message level, ⟨[⟨level, message⟩], [], []⟩, err)

/-- `AnarQQInstaller.update_progress`: one event to the progress callback. -/
def update_progress (value : Nat) (message : String) : Out :=
  ⟨[], [⟨value, message⟩], []⟩

/-- `AnarQQInstaller.check_command`: availability and version string of an
external tool, read from the environment oracle. -/
def check_command (tool : Option String) : Bool × String :=
  (tool.isSome, tool.getD "")

/-- `AnarQQInstaller.check_system_requirements`: logs the Python version,
probes node, npm, git and docker, checks free disk space, and returns
whether the error tally is zero. -/
def check_system_requirements (env : Env) (fs : FS) : Bool × FS × Out :=
  let r1 := log fs "Checking system requirements..." "INFO"
  let r2 := log r1.1 ("Python version: " ++ env.pythonVersion) "INFO"
  let rNode :=
    match env.node with
    | some v => log3 r2.1 ("✅ Node.js found: " ++ v) "INFO" 0
    | none => log3 r2.1 "❌ Node.js not found" "ERROR" 1
  let rNpm :=
    match env.npm with
    | some v => log3 rNode.1 ("✅ npm found: " ++ v) "INFO" 0
    | none => log3 rNode.1 "❌ npm not found" "ERROR" 1
  let rGit :=
    match env.git with
    | some v => log rNpm.1 ("✅ Git found: " ++ v) "INFO"
    | none => log rNpm.1 "⚠️ Git not found (will use ZIP download)" "WARNING"
  let rDocker :=
    match env.docker with
    | some v => log rGit.1 ("✅ Docker found: " ++ v) "INFO"
    | none => log rGit.1 "ℹ️ Docker not found (optional)" "INFO"
  let rDisk :=
    match env.freeBytes with
    | some free =>
      if CONFIG_required_disk_gb * 1024 ^ 3 ≤ free then
        log3 rDocker.1 "✅ Disk space available" "INFO" 0
      else
        log3 rDocker.1 "❌ Insufficient disk space" "ERROR" 1
    | none => log3 rDocker.1 "⚠️ Could not check disk space" "WARNING" 0
  let errors := rNode.2.2 + rNpm.2.2 + rDisk.2.2
  (errors == 0, rDisk.1,
    r1.2 ++ r2.2 ++ rNode.2.1 ++ rNpm.2.1 ++ rGit.2 ++ rDocker.2 ++ rDisk.2.1)

/-- `AnarQQInstaller.setup_directories`: creates the install root, the demo
and core directories (all with `exist_ok`) and touches the log file. -/
def setup_directories (fs : FS) : FS × Out :=
  let r1 := log fs "Setting up directories..." "INFO"
  let fs2 : FS :=
    { r1.1 with installDir := true,
                demoDir := ⟨true, r1.1.demoDir.hasGit⟩,
                coreDir := ⟨true, r1.1.coreDir.hasGit⟩,
                logFileCreated := true }
  let r2 := log fs2 "✅ Directories created at: install dir" "INFO"
  (r2.1, r1.2 ++ r2.2)

/-- Progress events produced by the `urlretrieve` reporthook of
`AnarQQInstaller.download_file`: for every hook call with positive total
size, `min(100, block_num * block_size * 100 // total_size)` is passed to
the progress callback. -/
def hook_events (description : String) (calls : List HookCall) : List ProgressEvent :=
  calls.filterMap fun c =>
    if 0 < c.totalSize then
      some ⟨min 100 (c.blockNum * c.blockSize * 100 / c.totalSize),
            "Downloading " ++ description ++ "... " ++
              toString (min 100 (c.blockNum * c.blockSize * 100 / c.totalSize)) ++ "%"⟩
    else none

/-- `AnarQQInstaller.download_file`: logs, attempts the download (emitting
reporthook progress events), and propagates a download exception. -/
def download_file (acq : AcqEnv) (tag description : String) (fs : FS) :
    Except String Unit × FS × Out :=
  let r1 := log fs ("Downloading " ++ description ++ "...") "INFO"
  let oHook : Out := ⟨[], hook_events description acq.hookCalls, [⟨tag, ActKind.download⟩]⟩
  match acq.downloadExc with
  | some e => (Except.error e, r1.1, r1.2 ++ oHook)
  | none =>
    let r2 := log r1.1 "✅ Downloaded" "INFO"
    (Except.ok (), r2.1, r1.2 ++ oHook ++ r2.2)

/-- `AnarQQInstaller.extract_zip`: logs, attempts extraction, and propagates
an extraction exception. -/
def extract_zip (acq : AcqEnv) (tag description : String) (fs : FS) :
    Except String Unit × FS × Out :=
  let r1 := log fs ("Extracting " ++ description ++ "...") "INFO"
  let oAct : Out := ⟨[], [], [⟨tag, ActKind.extract⟩]⟩
  match acq.extractExc with
  | some e => (Except.error e, r1.1, r1.2 ++ oAct)
  | none =>
    let r2 := log r1.1 "✅ Extracted" "INFO"
    (Except.ok (), r2.1, r1.2 ++ oAct ++ r2.2)

/-- ZIP fallback of `AnarQQInstaller.clone_or_download_repo`: download the
archive, extract it, and when the extraction produced at least one top-level
entry, remove any pre-existing destination and move the first entry there.
Download or extraction failures propagate as exceptions. -/
def zip_fallback (acq : AcqEnv) (dest : DirState) (name : String) (fs : FS) :
    Except String DirState × FS × Out :=
  let r1 := log fs ("Downloading " ++ name ++ " as ZIP...") "INFO"
  let rd := download_file acq name (name ++ " repository") r1.1
  match rd.1 with
  | Except.error e => (Except.error e, rd.2.1, r1.2 ++ rd.2.2)
  | Except.ok _ =>
    let rx := extract_zip acq name (name ++ " repository") rd.2.1
    match rx.1 with
    | Except.error e => (Except.error e, rx.2.1, r1.2 ++ rd.2.2 ++ rx.2.2)
    | Except.ok _ =>
      match acq.extractedDirs with
      | [] => (Except.ok dest, rx.2.1, r1.2 ++ rd.2.2 ++ rx.2.2)
      | _ :: _ =>
        let oMove : Out := ⟨[], [], [⟨name, ActKind.move⟩]⟩
        let r2 := log rx.2.1 ("✅ Downloaded and extracted " ++ name) "INFO"
        (Except.ok ⟨true, false⟩, r2.1, r1.2 ++ rd.2.2 ++ rx.2.2 ++ oMove ++ r2.2)

/-- `AnarQQInstaller.clone_or_download_repo`: when git is available, pull if
the destination holds a working copy and clone otherwise; a non-zero git
exit is logged as a warning and falls through to the ZIP fallback, which is
also taken directly when git is unavailable. -/
def clone_or_download_repo (env : Env) (acq : AcqEnv) (repo_url zip_url : String)
    (dest : DirState) (name : String) (fs : FS) : Except String DirState × FS × Out :=
  let git_available := (check_command env.git).1
  if git_available then
    let r1 := log fs ("Cloning " ++ name ++ " repository...") "INFO"
    if dest.dirExists && dest.hasGit then
      let oPull : Out := ⟨[], [], [⟨name, ActKind.gitPull⟩]⟩
      if acq.gitOk then
        let r2 := log r1.1 ("✅ Updated " ++ name ++ " repository") "INFO"
        (Except.ok dest, r2.1, r1.2 ++ oPull ++ r2.2)
      else
        let r2 := log r1.1 ("⚠️ Git clone failed: " ++ repo_url) "WARNING"
        let rf := zip_fallback acq dest name r2.1
        (rf.1, rf.2.1, r1.2 ++ oPull ++ r2.2 ++ rf.2.2)
    else
      let oClone : Out := ⟨[], [], [⟨name, ActKind.gitClone⟩]⟩
      if acq.gitOk then
        let r2 := log r1.1 ("✅ Cloned " ++ name ++ " repository") "INFO"
        (Except.ok ⟨true, true⟩, r2.1, r1.2 ++ oClone ++ r2.2)
      else
        let r2 := log r1.1 ("⚠️ Git clone failed: " ++ repo_url) "WARNING"
        let rf := zip_fallback acq dest name r2.1
        (rf.1, rf.2.1, r1.2 ++ oClone ++ r2.2 ++ rf.2.2)
  else
    let _ := zip_url
    zip_fallback acq dest name fs

/-- `AnarQQInstaller.install_dependencies`: `npm install` failure is logged
as ERROR and raised; a subsequent `npm run build` failure is logged as
WARNING and swallowed. -/
def install_dependencies (env : Env) (name : String) (fs : FS) :
    Except String Unit × FS × Out :=
  let r1 := log fs ("Installing " ++ name ++ " dependencies...") "INFO"
  let oNpm : Out := ⟨[], [], [⟨name, ActKind.npmInstall⟩]⟩
  if env.npmInstallOk then
    let r2 := log r1.1 ("✅ " ++ name ++ " dependencies installed") "INFO"
    let oBuild : Out := ⟨[], [], [⟨name, ActKind.npmBuild⟩]⟩
    if env.npmBuildOk then
      let r3 := log r2.1 ("✅ " ++ name ++ " built successfully") "INFO"
      (Except.ok (), r3.1, r1.2 ++ oNpm ++ r2.2 ++ oBuild ++ r3.2)
    else
      let r3 := log r2.1 ("⚠️ " ++ name ++ " build failed (not critical)") "WARNING"
      (Except.ok (), r3.1, r1.2 ++ oNpm ++ r2.2 ++ oBuild ++ r3.2)
  else
    let r2 := log r1.1 ("❌ Failed to install " ++ name ++ " dependencies") "ERROR"
    (Except.error ("npm install failed for " ++ name), r2.1, r1.2 ++ oNpm ++ r2.2)

/-- `AnarQQInstaller.setup_environment`: copy `.env.example` to `.env` in the
demo directory only when the former exists and the latter does not. -/
def setup_environment (fs : FS) : FS × Out :=
  let r1 := log fs "Setting up environment..." "INFO"
  if r1.1.envExample.isSome && !r1.1.envFile.isSome then
    let fs2 : FS := { r1.1 with envFile := r1.1.envExample }
    let r2 := log fs2 "✅ Environment file created" "INFO"
    (r2.1, r1.2 ++ r2.2)
  else
    (r1.1, r1.2)

/-- `AnarQQInstaller.create_launchers`: writes the platform start and stop
scripts into the install root. -/
def create_launchers (fs : FS) : FS × Out :=
  let r1 := log fs "Creating launcher scripts..." "INFO"
  let fs2 : FS := { r1.1 with startScript := true, stopScript := true }
  let r2 := log fs2 "✅ Launcher scripts created" "INFO"
  (r2.1, r1.2 ++ r2.2)

/-- Core-repository step of `AnarQQInstaller.install`: acquire the core
repository when requested, emitting the 60% checkpoint either way. -/
def install_core_step (env : Env) (install_core : Bool) (fs : FS) :
    Except String Unit × FS × Out :=
  if install_core then
    let rc := clone_or_download_repo env env.coreAcq CONFIG_core_repo CONFIG_core_zip
                fs.coreDir "Core" fs
    match rc.1 with
    | Except.error e => (Except.error e, rc.2.1, rc.2.2)
    | Except.ok d =>
      let fs2 : FS := { rc.2.1 with coreDir := d }
      (Except.ok (), fs2, rc.2.2 ++ update_progress 60 "Core repository downloaded")
  else
    (Except.ok (), fs, update_progress 60 "Skipping core repository")

/-- Tail of `AnarQQInstaller.install` after acquisition: dependency install,
environment setup, launcher creation and the final checkpoints. -/
def install_tail (env : Env) (fs : FS) : Except String Unit × FS × Out :=
  let rd := install_dependencies env "Demo" fs
  match rd.1 with
  | Except.error e => (Except.error e, rd.2.1, rd.2.2)
  | Except.ok _ =>
    let o80 := update_progress 80 "Dependencies installed"
    let re := setup_environment rd.2.1
    let o90 := update_progress 90 "Environment configured"
    let rl := create_launchers re.1
    let o100 := update_progress 100 "Installation completed"
    let rg := log rl.1 "🎉 Installation completed successfully!" "INFO"
    (Except.ok (), rg.1, rd.2.2 ++ o80 ++ re.2 ++ o90 ++ rl.2 ++ o100 ++ rg.2)

/-- Body of the `try` block of `AnarQQInstaller.install`: the sequenced run,
returning `Except.error` exactly where the Python body raises. -/
def install_body (env : Env) (install_core : Bool) (fs : FS) :
    Except String Bool × FS × Out :=
  let o0 := update_progress 0 "Starting installation..."
  let rc := check_system_requirements env fs
  if rc.1 then
    let o10 := update_progress 10 "System requirements checked"
    let rs := setup_directories rc.2.1
    let o20 := update_progress 20 "Directories created"
    let rdemo := clone_or_download_repo env env.demoAcq CONFIG_demo_repo CONFIG_demo_zip
                   rs.1.demoDir "Demo" rs.1
    match rdemo.1 with
    | Except.error e =>
      (Except.error e, rdemo.2.1, o0 ++ rc.2.2 ++ o10 ++ rs.2 ++ o20 ++ rdemo.2.2)
    | Except.ok d =>
      let fs4 : FS := { rdemo.2.1 with demoDir := d }
      let o40 := update_progress 40 "Demo repository downloaded"
      let rcore := install_core_step env install_core fs4
      let pre := o0 ++ rc.2.2 ++ o10 ++ rs.2 ++ o20 ++ rdemo.2.2 ++ o40
      match rcore.1 with
      | Except.error e => (Except.error e, rcore.2.1, pre ++ rcore.2.2)
      | Except.ok _ =>
        let rt := install_tail env rcore.2.1
        match rt.1 with
        | Except.error e => (Except.error e, rt.2.1, pre ++ rcore.2.2 ++ rt.2.2)
        | Except.ok _ => (Except.ok true, rt.2.1, pre ++ rcore.2.2 ++ rt.2.2)
  else
    let rerr := log rc.2.1 "❌ System requirements not met" "ERROR"
    (Except.ok false, rerr.1, o0 ++ rc.2.2 ++ rerr.2)

/-- `AnarQQInstaller.install`: the orchestrated run with its top-level
exception handler, never raising to the caller. -/
def install (env : Env) (install_core : Bool) (fs : FS) : Bool × FS × Out :=
  let rb := install_body env install_core fs
  match rb.1 with
  | Except.ok b => (b, rb.2.1, rb.2.2)
  | Except.error e =>
    let rerr := log rb.2.1 ("❌ Installation failed: " ++ e) "ERROR"
    (false, rerr.1, rb.2.2 ++ rerr.2)

/-- Whether the disk-space check does not add to the error tally: either the
probe raised (only a warning) or the free space meets the minimum. -/
def disk_ok (env : Env) : Bool :=
  match env.freeBytes with
  | none => true
  | some free => if CONFIG_required_disk_gb * 1024 ^ 3 ≤ free then true else false

/-- Value of the requirements check as a function of the environment. -/
def req_pass (env : Env) : Bool :=
  env.node.isSome && env.npm.isSome && disk_ok env

/-- Equality of all filesystem components other than the log file. -/
def FS.same_except_log (a b : FS) : Prop :=
  a.installDir = b.installDir ∧ a.demoDir = b.demoDir ∧ a.coreDir = b.coreDir ∧
  a.envExample = b.envExample ∧ a.envFile = b.envFile ∧
  a.startScript = b.startScript ∧ a.stopScript = b.stopScript

instance (a b : FS) : Decidable (a.same_except_log b) := by
  unfold FS.same_except_log
  infer_instance

/-- Boolean success observer for `Except` results. -/
def exceptOk {α : Type} (e : Except String α) : Bool :=
  match e with
  | Except.ok _ => true
  | Except.error _ => false

/-- The external actions one archive-fallback attempt performs, as a
function of its oracle: the download is always attempted; extraction only
after a successful download; the move only when extraction succeeded and
produced at least one top-level entry. -/
def fallback_actions (acq : AcqEnv) (nm : String) : List Action :=
  if acq.downloadExc.isSome then [⟨nm, ActKind.download⟩]
  else if acq.extractExc.isSome then [⟨nm, ActKind.download⟩, ⟨nm, ActKind.extract⟩]
  else if acq.extractedDirs.isEmpty then [⟨nm, ActKind.download⟩, ⟨nm, ActKind.extract⟩]
  else [⟨nm, ActKind.download⟩, ⟨nm, ActKind.extract⟩, ⟨nm, ActKind.move⟩]

/-- Acquisition oracle for a fully successful git operation. -/
def acq_ok : AcqEnv := ⟨true, none, [], none, ["anarqq-ecosystem-demo-main"]⟩

/-- Fresh filesystem: nothing installed yet. -/
def fs0 : FS := ⟨false, ⟨false, false⟩, ⟨false, false⟩, false, [], none, none, false, false⟩

/-- Environment in which everything needed is present and succeeds. -/
def env_ok : Env :=
  ⟨"3.10.0", some "v18.17.0", some "9.6.7", some "git version 2.40.0", none,
   some 6442450944, acq_ok, acq_ok, true, true⟩

/-- Acquisition oracle whose archive download reports one hook call of one
block of one byte against a total of two bytes, yielding percentage 50. -/
def acq_zip_hook : AcqEnv := ⟨false, none, [⟨1, 1, 2⟩], none, ["anarqq-ecosystem-demo-main"]⟩

/-- Environment with no git client, forcing the archive fallback whose
download hook emits percentage 50. -/
def env_zip : Env := { env_ok with git := none, demoAcq := acq_zip_hook, coreAcq := acq_zip_hook }

/-- Acquisition oracle where the git operation exits non-zero and the
archive download then raises. -/
def acq_git_fail_dl : AcqEnv := ⟨false, some "download failed", [], none, []⟩

/-- Environment where the demo git operation fails and the archive download
also fails. -/
def env_dlfail : Env := { env_ok with demoAcq := acq_git_fail_dl }

/-- Environment with the required node runtime missing. -/
def env_nonode : Env := { env_ok with node := none }

/-- Environment where only the npm build step fails. -/
def env_nobuild : Env := { env_ok with npmBuildOk := false }

/-- Filesystem with both a template environment file and a pre-existing live
environment file holding sentinel content. -/
def fs_sentinel : FS :=
  ⟨true, ⟨true, true⟩, ⟨true, false⟩, true, [], some "TEMPLATE", some "SENTINEL", false, false⟩

@[simp] theorem Out.append_logs (a b : Out) : (a ++ b).logs = a.logs ++ b.logs := rfl

@[simp] theorem Out.append_progress (a b : Out) : (a ++ b).progress = a.progress ++ b.progress := rfl

@[simp] theorem Out.append_actions (a b : Out) : (a ++ b).actions = a.actions ++ b.actions := rfl

@[simp] theorem log_fs_installDir (fs : FS) (m l : String) :
    (log_fs fs m l).installDir = fs.installDir := by
  unfold log_fs
  split <;> rfl

@[simp] theorem log_fs_demoDir (fs : FS) (m l : String) :
    (log_fs fs m l).demoDir = fs.demoDir := by
  unfold log_fs
  split <;> rfl

@[simp] theorem log_fs_coreDir (fs : FS) (m l : String) :
    (log_fs fs m l).coreDir = fs.coreDir := by
  unfold log_fs
  split <;> rfl

@[simp] theorem log_fs_envExample (fs : FS) (m l : String) :
    (log_fs fs m l).envExample = fs.envExample := by
  unfold log_fs
  split <;> rfl

@[simp] theorem log_fs_envFile (fs : FS) (m l : String) :
    (log_fs fs m l).envFile = fs.envFile := by
  unfold log_fs
  split <;> rfl

@[simp] theorem log_fs_startScript (fs : FS) (m l : String) :
    (log_fs fs m l).startScript = fs.startScript := by
  unfold log_fs
  split <;> rfl

@[simp] theorem log_fs_stopScript (fs : FS) (m l : String) :
    (log_fs fs m l).stopScript = fs.stopScript := by
  unfold log_fs
  split <;> rfl

theorem log_fs_content (fs : FS) (m l : String) :
    (log_fs fs m l).logFileContent =
      if fs.installDir then fs.logFileContent ++ [log_entry m l]
      else fs.logFileContent := by
  unfold log_fs
  split <;> simp_all

theorem log_fs_content_of_no_dir (fs : FS) (m l : String) (h : fs.installDir = false) :
    (log_fs fs m l).logFileContent = fs.logFileContent := by
  unfold log_fs
  simp [h]

theorem check_pass (env : Env) (fs : FS) :
    (check_system_requirements env fs).1 = req_pass env := by
  unfold check_system_requirements req_pass disk_ok
  rcases env with ⟨pv, node, npm, git, docker, free, dA, cA, ni, nb⟩
  cases node <;> cases npm <;> cases git <;> cases docker <;> cases free <;>
    simp [log3, log] <;> split <;> simp_all

theorem check_progress (env : Env) (fs : FS) :
    (check_system_requirements env fs).2.2.progress = [] := by
  unfold check_system_requirements
  rcases env with ⟨pv, node, npm, git, docker, free, dA, cA, ni, nb⟩
  cases node <;> cases npm <;> cases git <;> cases docker <;> cases free <;>
    simp [log3, log] <;> split <;> simp

theorem check_actions (env : Env) (fs : FS) :
    (check_system_requirements env fs).2.2.actions = [] := by
  unfold check_system_requirements
  rcases env with ⟨pv, node, npm, git, docker, free, dA, cA, ni, nb⟩
  cases node <;> cases npm <;> cases git <;> cases docker <;> cases free <;>
    simp [log3, log] <;> split <;> simp

theorem check_fs_fields (env : Env) (fs : FS) :
    ((check_system_requirements env fs).2.1).same_except_log fs := by
  unfold check_system_requirements FS.same_except_log
  rcases env with ⟨pv, node, npm, git, docker, free, dA, cA, ni, nb⟩
  cases node <;> cases npm <;> cases git <;> cases docker <;> cases free <;>
    simp [log3, log] <;> split <;> simp

theorem check_installDir (env : Env) (fs : FS) :
    (check_system_requirements env fs).2.1.installDir = fs.installDir := by
  unfold check_system_requirements
  rcases env with ⟨pv, node, npm, git, docker, free, dA, cA, ni, nb⟩
  cases node <;> cases npm <;> cases git <;> cases docker <;> cases free <;>
    simp [log3, log] <;> split <;> simp

theorem check_content_of_no_dir (env : Env) (fs : FS) (h : fs.installDir = false) :
    (check_system_requirements env fs).2.1.logFileContent = fs.logFileContent := by
  unfold check_system_requirements
  rcases env with ⟨pv, node, npm, git, docker, free, dA, cA, ni, nb⟩
  cases node <;> cases npm <;> cases git <;> cases docker <;> cases free <;>
    simp [log3, log, log_fs_content_of_no_dir, h] <;> split <;>
    simp [log_fs_content_of_no_dir, h]

@[simp] theorem setup_directories_installDir (fs : FS) :
    (setup_directories fs).1.installDir = true := by
  unfold setup_directories
  simp [log]

@[simp] theorem setup_directories_demoDir (fs : FS) :
    (setup_directories fs).1.demoDir = ⟨true, fs.demoDir.hasGit⟩ := by
  unfold setup_directories
  simp [log]

@[simp] theorem setup_directories_coreDir (fs : FS) :
    (setup_directories fs).1.coreDir = ⟨true, fs.coreDir.hasGit⟩ := by
  unfold setup_directories
  simp [log]

@[simp] theorem setup_directories_envExample (fs : FS) :
    (setup_directories fs).1.envExample = fs.envExample := by
  unfold setup_directories
  simp [log]

@[simp] theorem setup_directories_envFile (fs : FS) :
    (setup_directories fs).1.envFile = fs.envFile := by
  unfold setup_directories
  simp [log]

@[simp] theorem setup_directories_progress (fs : FS) :
    (setup_directories fs).2.progress = [] := by
  unfold setup_directories
  simp [log]

@[simp] theorem setup_directories_actions (fs : FS) :
    (setup_directories fs).2.actions = [] := by
  unfold setup_directories
  simp [log]

@[simp] theorem setup_environment_progress (fs : FS) :
    (setup_environment fs).2.progress = [] := by
  simp only [setup_environment, log]
  split <;> simp

@[simp] theorem setup_environment_actions (fs : FS) :
    (setup_environment fs).2.actions = [] := by
  simp only [setup_environment, log]
  split <;> simp

@[simp] theorem setup_environment_coreDir (fs : FS) :
    (setup_environment fs).1.coreDir = fs.coreDir := by
  simp only [setup_environment, log]
  split <;> simp

@[simp] theorem setup_environment_demoDir (fs : FS) :
    (setup_environment fs).1.demoDir = fs.demoDir := by
  simp only [setup_environment, log]
  split <;> simp

theorem setup_environment_envFile (fs : FS) :
    (setup_environment fs).1.envFile =
      if fs.envExample.isSome && !fs.envFile.isSome then fs.envExample else fs.envFile := by
  rcases hx : fs.envExample with _ | v <;> rcases hf : fs.envFile with _ | w <;>
    simp [setup_environment, log, hx, hf]

theorem setup_environment_envExample (fs : FS) :
    (setup_environment fs).1.envExample = fs.envExample := by
  simp only [setup_environment, log]
  split <;> simp

@[simp] theorem create_launchers_progress (fs : FS) :
    (create_launchers fs).2.progress = [] := by
  unfold create_launchers
  simp [log]

@[simp] theorem create_launchers_actions (fs : FS) :
    (create_launchers fs).2.actions = [] := by
  unfold create_launchers
  simp [log]

@[simp] theorem create_launchers_coreDir (fs : FS) :
    (create_launchers fs).1.coreDir = fs.coreDir := by
  unfold create_launchers
  simp [log]

@[simp] theorem install_dependencies_progress (env : Env) (nm : String) (fs : FS) :
    (install_dependencies env nm fs).2.2.progress = [] := by
  unfold install_dependencies
  cases hni : env.npmInstallOk <;> cases hnb : env.npmBuildOk <;> simp [log]

@[simp] theorem install_dependencies_coreDir (env : Env) (nm : String) (fs : FS) :
    (install_dependencies env nm fs).2.1.coreDir = fs.coreDir := by
  unfold install_dependencies
  cases hni : env.npmInstallOk <;> cases hnb : env.npmBuildOk <;> simp [log]

theorem install_dependencies_isOk (env : Env) (nm : String) (fs : FS) :
    exceptOk (install_dependencies env nm fs).1 = env.npmInstallOk := by
  unfold install_dependencies exceptOk
  cases hni : env.npmInstallOk <;> cases hnb : env.npmBuildOk <;> simp [log]

@[simp] theorem exceptOk_ok {α : Type} (x : α) : exceptOk (Except.ok x) = true := rfl

@[simp] theorem exceptOk_error {α : Type} (e : String) :
    exceptOk (Except.error e : Except String α) = false := rfl

theorem zip_fallback_isOk (acq : AcqEnv) (dest : DirState) (nm : String) (fs : FS) :
    exceptOk (zip_fallback acq dest nm fs).1 =
      (acq.downloadExc.isNone && acq.extractExc.isNone) := by
  unfold zip_fallback download_file extract_zip exceptOk
  cases hd : acq.downloadExc <;> cases hx : acq.extractExc <;>
    cases he : acq.extractedDirs <;> simp [log]

theorem zip_fallback_actions (acq : AcqEnv) (dest : DirState) (nm : String) (fs : FS) :
    (zip_fallback acq dest nm fs).2.2.actions = fallback_actions acq nm := by
  unfold zip_fallback download_file extract_zip fallback_actions
  cases hd : acq.downloadExc <;> cases hx : acq.extractExc <;>
    cases he : acq.extractedDirs <;> simp [log]

theorem zip_fallback_coreDir (acq : AcqEnv) (dest : DirState) (nm : String) (fs : FS) :
    (zip_fallback acq dest nm fs).2.1.coreDir = fs.coreDir := by
  unfold zip_fallback download_file extract_zip
  cases hd : acq.downloadExc <;> cases hx : acq.extractExc <;>
    cases he : acq.extractedDirs <;> simp [log]

theorem clone_actions (env : Env) (acq : AcqEnv) (ru zu : String) (dest : DirState)
    (nm : String) (fs : FS) :
    (clone_or_download_repo env acq ru zu dest nm fs).2.2.actions =
      if env.git.isSome then
        (if dest.dirExists && dest.hasGit then [⟨nm, ActKind.gitPull⟩]
         else [⟨nm, ActKind.gitClone⟩]) ++
          (if acq.gitOk then [] else fallback_actions acq nm)
      else fallback_actions acq nm := by
  unfold clone_or_download_repo check_command
  cases hg : env.git <;> cases hdg : dest.dirExists && dest.hasGit <;>
    cases ho : acq.gitOk <;> simp [log, zip_fallback_actions, hdg]

theorem clone_isOk (env : Env) (acq : AcqEnv) (ru zu : String) (dest : DirState)
    (nm : String) (fs : FS) :
    exceptOk (clone_or_download_repo env acq ru zu dest nm fs).1 =
      (env.git.isSome && acq.gitOk || (acq.downloadExc.isNone && acq.extractExc.isNone)) := by
  unfold clone_or_download_repo check_command
  cases hg : env.git <;> cases hdg : dest.dirExists && dest.hasGit <;>
    cases ho : acq.gitOk <;> simp [log, zip_fallback_isOk, hdg]

theorem clone_fs_coreDir (env : Env) (acq : AcqEnv) (ru zu : String) (dest : DirState)
    (nm : String) (fs : FS) :
    (clone_or_download_repo env acq ru zu dest nm fs).2.1.coreDir = fs.coreDir := by
  unfold clone_or_download_repo check_command
  cases hg : env.git <;> cases hdg : dest.dirExists && dest.hasGit <;>
    cases ho : acq.gitOk <;> simp [log, zip_fallback_coreDir, hdg]

theorem clone_fst_git_ok {env : Env} {acq : AcqEnv} {ru zu : String} {dest : DirState}
    {nm : String} {fs : FS} (hg : env.git.isSome = true) (ho : acq.gitOk = true) :
    (clone_or_download_repo env acq ru zu dest nm fs).1 =
      Except.ok (if dest.dirExists && dest.hasGit then dest else ⟨true, true⟩) := by
  unfold clone_or_download_repo check_command
  cases hdg : dest.dirExists && dest.hasGit <;> simp [log, hg, ho, hdg]

theorem clone_progress_git_ok {env : Env} {acq : AcqEnv} {ru zu : String} {dest : DirState}
    {nm : String} {fs : FS} (hg : env.git.isSome = true) (ho : acq.gitOk = true) :
    (clone_or_download_repo env acq ru zu dest nm fs).2.2.progress = [] := by
  unfold clone_or_download_repo check_command
  cases hdg : dest.dirExists && dest.hasGit <;> simp [log, hg, ho, hdg]

theorem clone_warning (env : Env) (acq : AcqEnv) (ru zu : String) (dest : DirState)
    (nm : String) (fs : FS) (hg : env.git.isSome = true) (ho : acq.gitOk = false) :
    ∃ r ∈ (clone_or_download_repo env acq ru zu dest nm fs).2.2.logs, r.level = "WARNING" := by
  refine ⟨⟨"WARNING", "⚠️ Git clone failed: " ++ ru⟩, ?_, rfl⟩
  unfold clone_or_download_repo check_command
  cases hdg : dest.dirExists && dest.hasGit <;> simp [log, hg, ho, hdg]

theorem clone_ok_dirExists {env : Env} {acq : AcqEnv} {ru zu : String} {dest : DirState}
    {nm : String} {fs : FS} (hde : dest.dirExists = true) (d : DirState)
    (h : (clone_or_download_repo env acq ru zu dest nm fs).1 = Except.ok d) :
    d.dirExists = true := by
  revert h
  unfold clone_or_download_repo zip_fallback download_file extract_zip check_command
  cases hg : env.git <;> cases hdg : dest.dirExists && dest.hasGit <;>
    cases ho : acq.gitOk <;> cases hdl : acq.downloadExc <;> cases hx : acq.extractExc <;>
    cases he : acq.extractedDirs <;> simp [log] <;> intro h <;> (try subst h) <;> simp_all

theorem install_char_git (env : Env) (c : Bool) (fs : FS)
    (hg : env.git.isSome = true) (hd : env.demoAcq.gitOk = true)
    (hc : c = true → env.coreAcq.gitOk = true) :
    (install env c fs).1 = (req_pass env && env.npmInstallOk) ∧
    List.map ProgressEvent.value (install env c fs).2.2.progress =
      (if req_pass env = false then [0]
       else if env.npmInstallOk = false then [0, 10, 20, 40, 60]
       else [0, 10, 20, 40, 60, 80, 90, 100]) := by
  have hcp := check_pass env fs
  by_cases hq : req_pass env = true
  · rw [hq] at hcp
    cases c
    · cases hni : env.npmInstallOk <;>
        cases hnb : env.npmBuildOk <;>
        simp [install, install_body, install_core_step, install_tail, update_progress,
              hcp, hq, hni, hnb, clone_fst_git_ok hg hd, clone_progress_git_ok hg hd,
              check_progress, install_dependencies, log]
    · have hco := hc rfl
      cases hni : env.npmInstallOk <;>
        cases hnb : env.npmBuildOk <;>
        simp [install, install_body, install_core_step, install_tail, update_progress,
              hcp, hq, hni, hnb, clone_fst_git_ok hg hd, clone_progress_git_ok hg hd,
              clone_fst_git_ok hg hco, clone_progress_git_ok hg hco,
              check_progress, install_dependencies, log]
  · have hq2 : req_pass env = false := by simpa using hq
    rw [hq2] at hcp
    simp [install, install_body, update_progress, hcp, hq2, check_progress, log]

theorem install_reqfail (env : Env) (c : Bool) (fs : FS) (h : req_pass env = false) :
    (install env c fs).1 = false ∧
    (install env c fs).2.2.logs =
      (check_system_requirements env fs).2.2.logs ++
        [⟨"ERROR", "❌ System requirements not met"⟩] ∧
    (install env c fs).2.2.actions = [] ∧
    (install env c fs).2.2.progress = [⟨0, "Starting installation..."⟩] ∧
    ((install env c fs).2.1).same_except_log fs := by
  have hcp := check_pass env fs
  rw [h] at hcp
  obtain ⟨e1, e2, e3, e4, e5, e6, e7⟩ := check_fs_fields env fs
  simp [install, install_body, update_progress, hcp, check_progress, check_actions, log,
        FS.same_except_log, e1, e2, e3, e4, e5, e6, e7]

/-- C4: the requirements check passes exactly when the required tools (node
and npm) are present and the free disk space is not insufficient; the
optional tools (git, docker) never affect the verdict. -/
theorem C4_requirements_pass_iff (env : Env) (fs : FS) :
    (check_system_requirements env fs).1 =
      (env.node.isSome && env.npm.isSome && disk_ok env) := by
  rw [check_pass]
  rfl

/-- C5: when the requirements check fails, the run returns false, performs
no external action, and leaves every filesystem component other than the
log file unchanged; in particular no installation directory is created. -/
theorem C5_no_mutation_on_failed_requirements (env : Env) (c : Bool) (fs : FS)
    (h : (check_system_requirements env fs).1 = false) :
    (install env c fs).1 = false ∧
    ((install env c fs).2.1).same_except_log fs ∧
    (install env c fs).2.2.actions = [] := by
  have hq : req_pass env = false := by rw [← check_pass env fs]; exact h
  obtain ⟨a, b, c', d, e⟩ := install_reqfail env c fs hq
  exact ⟨a, e, c'⟩

theorem C5_witness :
    (install env_nonode false fs0).1 = false ∧
    ((install env_nonode false fs0).2.1).same_except_log fs0 ∧
    (install env_nonode false fs0).2.2.actions = [] :=
  C5_no_mutation_on_failed_requirements env_nonode false fs0 (by decide)

/-- C7: the Configurator copies the template to the live environment file
exactly when the template exists and the live file does not, never touches
an existing live file's content, and never changes the template. -/
theorem C7_configurator_frame (fs : FS) :
    (setup_environment fs).1.envFile =
      (if fs.envExample.isSome && !fs.envFile.isSome then fs.envExample else fs.envFile) ∧
    (fs.envFile.isSome = true → (setup_environment fs).1.envFile = fs.envFile) ∧
    (setup_environment fs).1.envExample = fs.envExample := by
  refine ⟨setup_environment_envFile fs, ?_, setup_environment_envExample fs⟩
  intro hlive
  rw [setup_environment_envFile fs, hlive]
  simp

theorem C7_witness : (setup_environment fs_sentinel).1.envFile = some "SENTINEL" := by
  have h := (C7_configurator_frame fs_sentinel).2.1 (by decide)
  rw [h]
  rfl

/-- C8: any exception raised inside the orchestrated run body is caught at
the top of install: the run returns false, one ERROR record carrying the
underlying message is appended, and no further progress event or external
action occurs after the failure. -/
theorem C8_exception_caught (env : Env) (c : Bool) (fs : FS) (e : String) (fs2 : FS) (o : Out)
    (h : install_body env c fs = (Except.error e, fs2, o)) :
    (install env c fs).1 = false ∧
    (install env c fs).2.2.logs = o.logs ++ [⟨"ERROR", "❌ Installation failed: " ++ e⟩] ∧
    (install env c fs).2.2.progress = o.progress ∧
    (install env c fs).2.2.actions = o.actions := by
  simp [install, h, log]

theorem C8_witness :
    (install env_dlfail false fs0).1 = false ∧
    (install env_dlfail false fs0).2.2.logs =
      (install_body env_dlfail false fs0).2.2.logs ++
        [⟨"ERROR", "❌ Installation failed: " ++ "download failed"⟩] ∧
    (install env_dlfail false fs0).2.2.progress =
      (install_body env_dlfail false fs0).2.2.progress ∧
    (install env_dlfail false fs0).2.2.actions =
      (install_body env_dlfail false fs0).2.2.actions :=
  C8_exception_caught env_dlfail false fs0 "download failed"
    (install_body env_dlfail false fs0).2.1 (install_body env_dlfail false fs0).2.2 (by rfl)

/-- C2: with git available an acquisition pulls exactly when the destination
is an existing working copy and clones exactly otherwise; without git (or
after a git failure) the archive download fallback is taken, and without
git no version-control command is ever attempted. -/
theorem C2_acquire_strategy (env : Env) (acq : AcqEnv) (ru zu : String)
    (dest : DirState) (nm : String) (fs : FS) :
    ((Action.mk nm ActKind.gitPull ∈
        (clone_or_download_repo env acq ru zu dest nm fs).2.2.actions) ↔
      (env.git.isSome = true ∧ (dest.dirExists && dest.hasGit) = true)) ∧
    ((Action.mk nm ActKind.gitClone ∈
        (clone_or_download_repo env acq ru zu dest nm fs).2.2.actions) ↔
      (env.git.isSome = true ∧ (dest.dirExists && dest.hasGit) = false)) ∧
    ((Action.mk nm ActKind.download ∈
        (clone_or_download_repo env acq ru zu dest nm fs).2.2.actions) ↔
      (env.git.isSome && acq.gitOk) = false) := by
  rw [clone_actions]
  cases hgb : env.git.isSome <;> cases hdg : dest.dirExists && dest.hasGit <;>
    cases ho : acq.gitOk <;>
    simp [fallback_actions, hgb, hdg, ho] <;> (repeat' split) <;> simp_all

theorem C2_witness :
    Action.mk "Demo" ActKind.gitPull ∈
      (clone_or_download_repo env_ok acq_ok CONFIG_demo_repo CONFIG_demo_zip
        ⟨true, true⟩ "Demo" fs0).2.2.actions :=
  (C2_acquire_strategy env_ok acq_ok CONFIG_demo_repo CONFIG_demo_zip
    ⟨true, true⟩ "Demo" fs0).1.mpr (by decide)

/-- C1 counterexample: in a run forced onto the archive fallback (no git
client), the download reporthook passes the raw download percentage 50 to
the progress callback between the 20 and 40 checkpoints, so the emitted
sequence is neither monotonically non-decreasing nor drawn from the fixed
checkpoint set. -/
theorem C1_counterexample :
    List.map ProgressEvent.value (install env_zip false fs0).2.2.progress =
      [0, 10, 20, 50, 40, 60, 80, 90, 100] ∧
    ¬ List.Chain' (fun a b => a ≤ b)
        (List.map ProgressEvent.value (install env_zip false fs0).2.2.progress) := by
  have h : List.map ProgressEvent.value (install env_zip false fs0).2.2.progress =
      [0, 10, 20, 50, 40, 60, 80, 90, 100] := by decide
  refine ⟨h, ?_⟩
  rw [h]
  intro hch
  simp [List.chain'_cons] at hch

/-- C1 (amended): in every installation run whose acquisitions all succeed
over version control (git available and every attempted git operation exits
zero, so the archive-fallback download hook never fires), the progress
percentages passed to the callback are monotonically non-decreasing, drawn
from the fixed checkpoint sequence 0, 10, 20, 40, 60, 80, 90, 100, and on a
successful run the final emitted value is 100. -/
theorem C1_progress_checkpoints (env : Env) (c : Bool) (fs : FS)
    (hg : env.git.isSome = true) (hd : env.demoAcq.gitOk = true)
    (hc : c = true → env.coreAcq.gitOk = true) :
    List.Chain' (fun a b => a ≤ b)
      (List.map ProgressEvent.value (install env c fs).2.2.progress) ∧
    (∀ v ∈ List.map ProgressEvent.value (install env c fs).2.2.progress,
      v ∈ ([0, 10, 20, 40, 60, 80, 90, 100] : List Nat)) ∧
    ((install env c fs).1 = true →
      (List.map ProgressEvent.value (install env c fs).2.2.progress).getLast? = some 100) := by
  obtain ⟨h1, h2⟩ := install_char_git env c fs hg hd hc
  rw [h2, h1]
  cases hq : req_pass env <;> cases hni : env.npmInstallOk <;> simp [hq, hni]

theorem C1_progress_checkpoints_witness :
    List.Chain' (fun a b => a ≤ b)
      (List.map ProgressEvent.value (install env_ok false fs0).2.2.progress) ∧
    (∀ v ∈ List.map ProgressEvent.value (install env_ok false fs0).2.2.progress,
      v ∈ ([0, 10, 20, 40, 60, 80, 90, 100] : List Nat)) ∧
    ((install env_ok false fs0).1 = true →
      (List.map ProgressEvent.value (install env_ok false fs0).2.2.progress).getLast? =
        some 100) :=
  C1_progress_checkpoints env_ok false fs0 (by decide) (by decide) (by decide)

/-- C6: in the dependency-install step a failing npm install is logged as
ERROR and propagates (aborting the run with a false result), while a
failing npm build is logged only as WARNING, the step still succeeds, and
an otherwise healthy run completes with a true result. -/
theorem C6_dependency_failures (env : Env) (nm : String) (fs : FS) (c : Bool) (fs2 : FS)
    (hq : req_pass env = true) (hg : env.git.isSome = true) (hd : env.demoAcq.gitOk = true)
    (hc : c = true → env.coreAcq.gitOk = true) :
    exceptOk (install_dependencies env nm fs).1 = env.npmInstallOk ∧
    ((install_dependencies env nm fs).2.2.logs.any fun r => r.level == "ERROR") =
      !env.npmInstallOk ∧
    ((install_dependencies env nm fs).2.2.logs.any fun r => r.level == "WARNING") =
      (env.npmInstallOk && !env.npmBuildOk) ∧
    (install env c fs2).1 = env.npmInstallOk := by
  refine ⟨install_dependencies_isOk env nm fs, ?_, ?_, ?_⟩
  · unfold install_dependencies
    cases hni : env.npmInstallOk <;> cases hnb : env.npmBuildOk <;> simp [log]
  · unfold install_dependencies
    cases hni : env.npmInstallOk <;> cases hnb : env.npmBuildOk <;> simp [log]
  · rw [(install_char_git env c fs2 hg hd hc).1, hq]
    simp

theorem C6_witness :
    exceptOk (install_dependencies env_nobuild "Demo" fs0).1 = env_nobuild.npmInstallOk ∧
    ((install_dependencies env_nobuild "Demo" fs0).2.2.logs.any
        fun r => r.level == "ERROR") = !env_nobuild.npmInstallOk ∧
    ((install_dependencies env_nobuild "Demo" fs0).2.2.logs.any
        fun r => r.level == "WARNING") =
      (env_nobuild.npmInstallOk && !env_nobuild.npmBuildOk) ∧
    (install env_nobuild false fs0).1 = env_nobuild.npmInstallOk :=
  C6_dependency_failures env_nobuild "Demo" fs0 false fs0
    (by decide) (by decide) (by decide) (by decide)

theorem exists_error_of_any (l : List LogRecord)
    (h : (l.any fun r => r.level == "ERROR") = true) :
    ∃ r ∈ l, r.level = "ERROR" := by
  rcases List.any_eq_true.mp h with ⟨r, hr, hlev⟩
  exact ⟨r, hr, by simpa using hlev⟩

theorem install_catch (env : Env) (c : Bool) (fs : FS) (e : String)
    (h : (install_body env c fs).1 = Except.error e) :
    (install env c fs).1 = false ∧
    (install env c fs).2.2.logs =
      (install_body env c fs).2.2.logs ++
        [⟨"ERROR", "❌ Installation failed: " ++ e⟩] := by
  simp [install, h, log]

theorem install_body_demo_fail (env : Env) (c : Bool) (fs : FS)
    (hq : req_pass env = true)
    (hgf : (env.git.isSome && env.demoAcq.gitOk) = false)
    (hfb : (env.demoAcq.downloadExc.isNone && env.demoAcq.extractExc.isNone) = false) :
    ∃ e, (install_body env c fs).1 = Except.error e := by
  have hcp := check_pass env fs
  rw [hq] at hcp
  have hok := clone_isOk env env.demoAcq CONFIG_demo_repo CONFIG_demo_zip
      (setup_directories (check_system_requirements env fs).2.1).1.demoDir "Demo"
      (setup_directories (check_system_requirements env fs).2.1).1
  rw [hgf, hfb] at hok
  simp only [Bool.or_self] at hok
  simp only [install_body, hcp, eq_self_iff_true, if_true]
  split
  · rename_i e heq
    exact ⟨e, rfl⟩
  · rename_i d heq
    rw [heq] at hok
    simp at hok

theorem install_demo_fallback_fail (env : Env) (c : Bool) (fs : FS)
    (hgf : (env.git.isSome && env.demoAcq.gitOk) = false)
    (hfb : (env.demoAcq.downloadExc.isNone && env.demoAcq.extractExc.isNone) = false) :
    (install env c fs).1 = false ∧
    ((install env c fs).2.2.logs.any fun r => r.level == "ERROR") = true := by
  by_cases hq : req_pass env = true
  · obtain ⟨e, he⟩ := install_body_demo_fail env c fs hq hgf hfb
    obtain ⟨h1, h2⟩ := install_catch env c fs e he
    refine ⟨h1, ?_⟩
    rw [h2]
    simp
  · have hq2 : req_pass env = false := by simpa using hq
    obtain ⟨h1, h2, _, _, _⟩ := install_reqfail env c fs hq2
    refine ⟨h1, ?_⟩
    rw [h2]
    simp

/-- C3: a version-control operation that exits non-zero is logged as a
WARNING and triggers the archive fallback instead of aborting, while a
failure of the archive download or extraction propagates out of the
acquirer and makes the whole installation run return false with an ERROR
record. -/
theorem C3_failure_semantics (env : Env) (ru zu : String) (dest : DirState)
    (nm : String) (fs fsr : FS) (c : Bool)
    (hg : env.git.isSome = true) (hf : env.demoAcq.gitOk = false)
    (hfd : env.demoAcq.downloadExc.isSome = true ∨ env.demoAcq.extractExc.isSome = true) :
    (∃ r ∈ (clone_or_download_repo env env.demoAcq ru zu dest nm fs).2.2.logs,
        r.level = "WARNING") ∧
    Action.mk nm ActKind.download ∈
      (clone_or_download_repo env env.demoAcq ru zu dest nm fs).2.2.actions ∧
    exceptOk (clone_or_download_repo env env.demoAcq ru zu dest nm fs).1 =
      (env.demoAcq.downloadExc.isNone && env.demoAcq.extractExc.isNone) ∧
    (install env c fsr).1 = false ∧
    ∃ r ∈ (install env c fsr).2.2.logs, r.level = "ERROR" := by
  have hfb : (env.demoAcq.downloadExc.isNone && env.demoAcq.extractExc.isNone) = false := by
    rcases hfd with h1 | h1 <;> rcases Option.isSome_iff_exists.mp h1 with ⟨v, hv⟩ <;> simp [hv]
  have hgf : (env.git.isSome && env.demoAcq.gitOk) = false := by simp [hg, hf]
  obtain ⟨hI1, hI2⟩ := install_demo_fallback_fail env c fsr hgf hfb
  refine ⟨clone_warning env env.demoAcq ru zu dest nm fs hg hf, ?_, ?_, hI1,
    exists_error_of_any _ hI2⟩
  · rw [clone_actions]
    cases hdg : dest.dirExists && dest.hasGit <;>
      simp [hg, hf, fallback_actions, hdg] <;> (repeat' split) <;> simp
  · rw [clone_isOk]
    simp [hg, hf]

theorem C3_witness :
    (∃ r ∈ (clone_or_download_repo env_dlfail env_dlfail.demoAcq CONFIG_demo_repo
        CONFIG_demo_zip ⟨true, false⟩ "Demo" fs0).2.2.logs, r.level = "WARNING") ∧
    Action.mk "Demo" ActKind.download ∈
      (clone_or_download_repo env_dlfail env_dlfail.demoAcq CONFIG_demo_repo
        CONFIG_demo_zip ⟨true, false⟩ "Demo" fs0).2.2.actions ∧
    exceptOk (clone_or_download_repo env_dlfail env_dlfail.demoAcq CONFIG_demo_repo
        CONFIG_demo_zip ⟨true, false⟩ "Demo" fs0).1 =
      (env_dlfail.demoAcq.downloadExc.isNone && env_dlfail.demoAcq.extractExc.isNone) ∧
    (install env_dlfail false fs0).1 = false ∧
    ∃ r ∈ (install env_dlfail false fs0).2.2.logs, r.level = "ERROR" :=
  C3_failure_semantics env_dlfail CONFIG_demo_repo CONFIG_demo_zip ⟨true, false⟩
    "Demo" fs0 fs0 false (by decide) (by decide) (Or.inl (by decide))

theorem install_tail_coreDir (env : Env) (fs : FS) :
    (install_tail env fs).2.1.coreDir = fs.coreDir := by
  cases hni : env.npmInstallOk <;> cases hnb : env.npmBuildOk <;>
    simp [install_tail, install_dependencies, log, hni, hnb]

theorem install_core_step_coreDir (env : Env) (c : Bool) (fs : FS)
    (hde : fs.coreDir.dirExists = true) :
    (install_core_step env c fs).2.1.coreDir.dirExists = true := by
  cases c
  · simpa [install_core_step] using hde
  · unfold install_core_step
    simp only [if_true]
    split
    · rename_i e heq
      simp [clone_fs_coreDir, hde]
    · rename_i d heq
      simpa using clone_ok_dirExists hde d heq

theorem install_coreDir_eq_body (env : Env) (c : Bool) (fs : FS) :
    (install env c fs).2.1.coreDir = (install_body env c fs).2.1.coreDir := by
  simp only [install, log]
  split <;> simp

theorem install_body_coreDir (env : Env) (c : Bool) (fs : FS) (hq : req_pass env = true) :
    (install_body env c fs).2.1.coreDir.dirExists = true := by
  have hcp := check_pass env fs
  rw [hq] at hcp
  simp only [install_body, hcp, eq_self_iff_true, if_true]
  split
  · rename_i e heq
    simp [clone_fs_coreDir]
  · rename_i d heq
    split
    · rename_i e2 heq2
      exact install_core_step_coreDir env c _ (by simp [clone_fs_coreDir])
    · rename_i u heq2
      split <;>
        (rw [install_tail_coreDir]
         exact install_core_step_coreDir env c _ (by simp [clone_fs_coreDir]))

theorem fallback_actions_name (acq : AcqEnv) (nm : String) (a : Action)
    (ha : a ∈ fallback_actions acq nm) : a.name = nm := by
  unfold fallback_actions at ha
  repeat' split at ha
  all_goals aesop

theorem clone_actions_name (env : Env) (acq : AcqEnv) (ru zu : String) (dest : DirState)
    (nm : String) (fs : FS) (a : Action)
    (ha : a ∈ (clone_or_download_repo env acq ru zu dest nm fs).2.2.actions) :
    a.name = nm := by
  rw [clone_actions] at ha
  repeat' split at ha
  all_goals try simp only [List.append_nil, List.mem_append, List.mem_singleton,
    List.mem_cons, List.not_mem_nil, or_false] at ha
  all_goals first
    | exact fallback_actions_name _ _ _ ha
    | (rcases ha with rfl | ha
       · rfl
       · exact fallback_actions_name _ _ _ ha)
    | (rcases ha with rfl
       rfl)

theorem install_tail_actions_name (env : Env) (fs : FS) (a : Action)
    (ha : a ∈ (install_tail env fs).2.2.actions) : a.name = "Demo" := by
  revert ha
  cases hni : env.npmInstallOk <;> cases hnb : env.npmBuildOk <;>
    simp [install_tail, install_dependencies, log, update_progress, hni, hnb] <;> aesop

theorem install_actions_eq (env : Env) (c : Bool) (fs : FS) :
    (install env c fs).2.2.actions = (install_body env c fs).2.2.actions := by
  simp only [install, log]
  split <;> simp

theorem install_body_actions_name (env : Env) (fs : FS) (a : Action)
    (ha : a ∈ (install_body env false fs).2.2.actions) : a.name = "Demo" := by
  by_cases hq : req_pass env = true
  · have hcp := check_pass env fs
    rw [hq] at hcp
    simp only [install_body, hcp, eq_self_iff_true, if_true, install_core_step,
      Bool.false_eq_true, if_false, update_progress] at ha
    split at ha
    · rename_i e heq
      simp [check_actions] at ha
      exact clone_actions_name _ _ _ _ _ _ _ _ ha
    · rename_i d heq
      split at ha
      · rename_i e2 heq2
        simp [check_actions] at ha
        rcases ha with ha | ha
        · exact clone_actions_name _ _ _ _ _ _ _ _ ha
        · exact install_tail_actions_name _ _ _ ha
      · rename_i u heq2
        simp [check_actions] at ha
        rcases ha with ha | ha
        · exact clone_actions_name _ _ _ _ _ _ _ _ ha
        · exact install_tail_actions_name _ _ _ ha
  · have hq2 : req_pass env = false := by simpa using hq
    have hcp := check_pass env fs
    rw [hq2] at hcp
    simp [install_body, hcp, check_actions, update_progress, log] at ha

/-- C9 counterexample: a successful run with install_core = false still
creates the core directory: directory setup creates it unconditionally. -/
theorem C9_counterexample :
    fs0.coreDir.dirExists = false ∧
    (install env_ok false fs0).2.1.coreDir.dirExists = true := by
  constructor
  · rfl
  · decide

/-- C9 (amended): every run that passes the requirements check creates the
core directory regardless of the install_core flag; only the acquisition of
the core repository is conditional on the flag — with install_core = false
no external action for the Core component is ever performed. -/
theorem C9_core_dir_unconditional (env : Env) (c : Bool) (fs : FS)
    (hq : req_pass env = true) :
    (install env c fs).2.1.coreDir.dirExists = true ∧
    (c = false → ∀ a ∈ (install env c fs).2.2.actions, a.name ≠ "Core") := by
  constructor
  · rw [install_coreDir_eq_body]
    exact install_body_coreDir env c fs hq
  · rintro rfl
    intro a ha
    rw [install_actions_eq] at ha
    have hnm := install_body_actions_name env fs a ha
    rw [hnm]
    decide

theorem C9_witness :
    (install env_ok false fs0).2.1.coreDir.dirExists = true ∧
    (false = false → ∀ a ∈ (install env_ok false fs0).2.2.actions, a.name ≠ "Core") :=
  C9_core_dir_unconditional env_ok false fs0 (by decide)

/-- C10: a log record is persisted to the log file only when the install
root exists at the moment of logging, while every record is always
delivered to stdout and the log callback; hence on a fresh system a failed
requirements check leaves the log file content untouched even though the
ERROR records reach the callback stream. -/
theorem C10_log_persistence :
    (∀ fs m l,
      (log fs m l).1.logFileContent =
        (if fs.installDir then fs.logFileContent ++ [log_entry m l]
         else fs.logFileContent) ∧
      (log fs m l).2.logs = [⟨l, m⟩]) ∧
    (∀ env c fs, fs.installDir = false → req_pass env = false →
      (install env c fs).2.1.logFileContent = fs.logFileContent ∧
      ∃ r ∈ (install env c fs).2.2.logs, r.level = "ERROR") := by
  constructor
  · intro fs m l
    exact ⟨log_fs_content fs m l, rfl⟩
  · intro env c fs hdir hq
    have hcp := check_pass env fs
    rw [hq] at hcp
    constructor
    · simp only [install, install_body, hcp, update_progress, log]
      simp only [Bool.false_eq_true, if_false]
      rw [log_fs_content_of_no_dir _ _ _ (by rw [check_installDir]; exact hdir)]
      exact check_content_of_no_dir env fs hdir
    · obtain ⟨_, hlogs, _, _, _⟩ := install_reqfail env c fs hq
      rw [hlogs]
      exact ⟨⟨"ERROR", "❌ System requirements not met"⟩, by simp, rfl⟩

theorem C10_witness :
    (install env_nonode false fs0).2.1.logFileContent = fs0.logFileContent ∧
    ∃ r ∈ (install env_nonode false fs0).2.2.logs, r.level = "ERROR" :=
  C10_log_persistence.2 env_nonode false fs0 (by decide) (by decide)

end AnarQQ
